import Mathlib

/-!
Verification of the IoC container and bootstrap sequencer of the
modern-django-template repository.

The repository's two source files are `src/ioc/container.py` (the
`ContainerFactory` bootstrap entry point) and `src/ioc/registries.py`
(the `Registry.register` service registration).  The container itself
(`diwire.Container`) is an external collaborator; its register/resolve
semantics are modelled from the specification's definition of the core
(§3 data model, §4.1 registry, §4.2 resolver algorithm, §7 errors).

Instances are modelled as natural-number identities (`Nat` ids), so that
"reference equality" of the specification becomes equality of ids.
-/

namespace ModernDjango

/-- A service key: either a type identifier or an opaque string name
(spec §3 "ServiceKey").  The source registers by type
(e.g. `container.resolve(DjangoConfigurator)`) and by string name
(`container.register("FastAPIFactory", ...)`). -/
inductive ServiceKey
  | typeKey (name : String)
  | nameKey (name : String)
deriving DecidableEq, Repr

/-- Instance lifetimes (spec §3): the source uses
`Lifetime.SINGLETON` from `diwire`; the enum also reserves
TRANSIENT and SCOPED slots. -/
inductive Lifetime
  | TRANSIENT
  | SINGLETON
  | SCOPED
deriving DecidableEq, Repr

/-- Modelled from the spec: a `Binding` associates a key with a
construction strategy and a lifetime (spec §3).  A factory is a
zero-argument function that may call `resolve` for its dependencies;
it is modelled by the ordered list of keys it resolves (`deps`)
together with whether it returns the first resolved dependency's
instance (`returnsFirstDep = true`, as the
`lambda: container.resolve(FastAPIFactory)` factory in
`src/ioc/registries.py` does) or constructs a fresh instance. -/
structure Binding where
  deps : List ServiceKey
  returnsFirstDep : Bool
  lifetime : Lifetime
deriving DecidableEq, Repr

/-- Observable bootstrap events, used to state ordering and
skip/run properties of the bootstrap phases. -/
inductive Event
  | resolveCollaborator (name : String)
  | djangoConfigure (settingsModule : String)
  | loggingConfigure
  | instrumentLibraries
  | registryRegisterInvoked
  | registered (k : ServiceKey)
deriving DecidableEq, Repr

/-- Errors of the modelled core (spec §7).  `unregisteredService` and
`circularDependency` are the resolver's errors; `collaboratorFailure`
is an error raised by a configurator/instrumentor/registry stub;
`bootstrapPhaseError` is the wrapper the spec describes in §7 — the
source never constructs it, it is declared here so the wrapping claim
is statable.  `outOfFuel` is an artifact of the fuel-indexed embedding
of the resolver and is proved unreachable. -/
inductive Err
  | unregisteredService (k : ServiceKey)
  | circularDependency (k : ServiceKey)
  | collaboratorFailure (msg : String)
  | bootstrapPhaseError (cause : Err)
  | outOfFuel
deriving DecidableEq, Repr

/-- The container state (spec §3): the registry mapping, the singleton
cache, the in-progress set used for cycle detection, a fresh-id counter
for constructed instances, the trace of factory invocations (for the
at-most-once properties) and the trace of bootstrap events. -/
structure Container where
  registry : List (ServiceKey × Binding)
  cache : List (ServiceKey × Nat)
  inProgress : List ServiceKey
  nextId : Nat
  factoryRuns : List ServiceKey
  events : List Event
deriving DecidableEq, Repr

instance {ε α : Type} [DecidableEq ε] [DecidableEq α] : DecidableEq (Except ε α) :=
  fun a b =>
    match a, b with
    | .error e1, .error e2 =>
      match decEq e1 e2 with
      | isTrue h => isTrue (by rw [h])
      | isFalse h => isFalse (fun hc => h (by injection hc))
    | .ok v1, .ok v2 =>
      match decEq v1 v2 with
      | isTrue h => isTrue (by rw [h])
      | isFalse h => isFalse (fun hc => h (by injection hc))
    | .error _, .ok _ => isFalse (fun hc => Except.noConfusion hc)
    | .ok _, .error _ => isFalse (fun hc => Except.noConfusion hc)

/-- Registry lookup (spec §4.1 `lookup`); the registry list is kept
most-recent-first, so lookup of the head realises last-write-wins
replacement. -/
def lookupBinding (k : ServiceKey) : List (ServiceKey × Binding) → Option Binding
  | [] => none
  | (k1, b) :: rest => if k1 = k then some b else lookupBinding k rest

/-- Singleton-cache lookup (spec §3 "SingletonCache"). -/
def lookupCache (k : ServiceKey) : List (ServiceKey × Nat) → Option Nat
  | [] => none
  | (k1, i) :: rest => if k1 = k then some i else lookupCache k rest

/-- Remove the first occurrence of a key from the in-progress list
(spec §4.2: the in-progress mark is cleared when construction for the
key finishes). -/
def removeKey (k : ServiceKey) : List ServiceKey → List ServiceKey
  | [] => []
  | a :: rest => if a = k then rest else a :: removeKey k rest

/-- Number of occurrences of a key in a list (used to count factory
invocations per key). -/
def countKey (k : ServiceKey) : List ServiceKey → Nat
  | [] => 0
  | a :: rest => (if a = k then 1 else 0) + countKey k rest

/-- The keys of the registry that are not currently under
construction; the length of this list strictly decreases each time the
resolver begins constructing a registered key, which bounds the
recursion depth of resolution. -/
def freeKeys (s : Container) : List ServiceKey :=
  (s.registry.map Prod.fst).filter (fun a => decide (a ∉ s.inProgress))

/-- The largest number of dependencies any registered factory resolves. -/
def maxFanout (reg : List (ServiceKey × Binding)) : Nat :=
  reg.foldr (fun p m => max p.2.deps.length m) 0

/-- Modelled from the spec (§4.2 steps 3-4): finish the factory run of
key `k` once its dependency instances `depIds` have been resolved in
state `s2`.  A returns-first-dep factory yields its first dependency's
instance; otherwise a fresh id is allocated.  The key's in-progress
mark is cleared, the factory invocation is recorded, and a SINGLETON
instance is stored in the cache before being returned. -/
def finishConstruction (k : ServiceKey) (bd : Binding) (depIds : List Nat) (s2 : Container) :
    Nat × Container :=
  match bd.returnsFirstDep, depIds with
  | true, i :: _ =>
    (i, { s2 with
      inProgress := removeKey k s2.inProgress,
      factoryRuns := s2.factoryRuns ++ [k],
      cache := if bd.lifetime = Lifetime.SINGLETON then (k, i) :: s2.cache else s2.cache })
  | _, _ =>
    (s2.nextId, { s2 with
      nextId := s2.nextId + 1,
      inProgress := removeKey k s2.inProgress,
      factoryRuns := s2.factoryRuns ++ [k],
      cache := if bd.lifetime = Lifetime.SINGLETON then (k, s2.nextId) :: s2.cache
               else s2.cache })

/-- Modelled from the spec: the resolver algorithm of §4.2, for a
sequence of keys (a factory's dependency list is resolved in order).
Per key: (1) registry lookup, failing with `unregisteredService`;
(2) singleton cache hit returns the cached instance; (3) re-entry into
a key currently under construction fails with `circularDependency`;
otherwise the factory runs: its dependencies are resolved recursively
with the key marked in-progress and `finishConstruction` builds the
instance and caches it.  The fuel argument only bounds the recursion
depth of the embedding; `fuelBound` fuel is proved sufficient. -/
def resolveSeq : Nat → List ServiceKey → Container → Except Err (List Nat × Container)
  | _, [], s => .ok ([], s)
  | 0, _ :: _, _ => .error .outOfFuel
  | fuel + 1, k :: rest, s =>
    match lookupBinding k s.registry with
    | none => .error (.unregisteredService k)
    | some bd =>
      match (if bd.lifetime = Lifetime.SINGLETON then lookupCache k s.cache else none) with
      | some i =>
        match resolveSeq fuel rest s with
        | .error e => .error e
        | .ok (is, s4) => .ok (i :: is, s4)
      | none =>
        if k ∈ s.inProgress then .error (.circularDependency k)
        else
          match resolveSeq fuel bd.deps { s with inProgress := k :: s.inProgress } with
          | .error e => .error e
          | .ok (depIds, s2) =>
            match resolveSeq fuel rest (finishConstruction k bd depIds s2).2 with
            | .error e => .error e
            | .ok (is, s4) => .ok ((finishConstruction k bd depIds s2).1 :: is, s4)

/-- Fuel that always suffices for `resolveSeq` on a single key
(proved in `resolveSeq_no_fuel_exhaustion`). -/
def fuelBound (s : Container) : Nat :=
  ((freeKeys s).length * (maxFanout s.registry + 1) + 1) + 1

/-- Modelled from the spec: `resolve(key) -> instance` (spec §4.2),
the single-key entry point of the resolver. -/
def Container.resolve (k : ServiceKey) (s : Container) : Except Err (Nat × Container) :=
  match resolveSeq (fuelBound s) [k] s with
  | .error e => .error e
  | .ok (is, s1) => .ok (is.headD 0, s1)

/-- Container registration (spec §4.1 `register`): stores or replaces
the binding for the key (the new binding is prepended, and
`lookupBinding` reads the most recent one). -/
def Container.register (k : ServiceKey) (bd : Binding) (s : Container) : Container :=
  { s with registry := (k, bd) :: s.registry, events := s.events ++ [.registered k] }

/-- A fresh container, as built by
`Container(autoregister_default_lifetime=Lifetime.SINGLETON)` at the
top of `ContainerFactory.__call__`: empty registry, empty cache,
nothing in progress.  Autoregistration itself is behavior of the
external `diwire` library; collaborator resolution is modelled as an
observable event, and the autoregistered `FastAPIFactory` type binding
is modelled explicitly by `autoRegisteredFastAPI`. -/
def Container.new : Container :=
  { registry := [], cache := [], inProgress := [], nextId := 0, factoryRuns := [], events := [] }

/-- The binding registered by `Registry.register` in
`src/ioc/registries.py`: string key `"FastAPIFactory"`, factory
`lambda: container.resolve(FastAPIFactory)` (resolves the type key and
returns that instance), lifetime `SINGLETON`. -/
def fastApiBinding : Binding :=
  { deps := [ServiceKey.typeKey "FastAPIFactory"], returnsFirstDep := true,
    lifetime := Lifetime.SINGLETON }

/-- Embedding of `Registry.register` from `src/ioc/registries.py`:
one `container.register` call for the string key `"FastAPIFactory"`. -/
def Registry.register (container : Container) : Container :=
  Container.register (ServiceKey.nameKey "FastAPIFactory") fastApiBinding container

/-- The binding `diwire` autoregistration would give the
`FastAPIFactory` type key: default lifetime SINGLETON (the source
passes `autoregister_default_lifetime=Lifetime.SINGLETON`), fresh
construction. -/
def autoRegisteredFastAPI : Binding :=
  { deps := [], returnsFirstDep := false, lifetime := Lifetime.SINGLETON }

/-- Stub behavior of the collaborators invoked during bootstrap: for
each collaborator, `none` means its invoked method returns normally
and `some msg` means it raises an error `msg` (spec §8's collaborator
stubs). -/
structure CollabBehavior where
  djangoError : Option String
  loggingError : Option String
  instrumentError : Option String
  registerError : Option String
deriving DecidableEq, Repr

/-- The behavior in which every collaborator succeeds. -/
def CollabBehavior.allOk : CollabBehavior :=
  { djangoError := none, loggingError := none, instrumentError := none, registerError := none }

/-- Append one observable event to the container's bootstrap trace. -/
def logEvent (e : Event) (s : Container) : Container :=
  { s with events := s.events ++ [e] }

/-- Embedding of `ContainerFactory._configure_django`: resolve the
`DjangoConfigurator` collaborator and invoke
`configure(django_settings_module="configs.django")`; a raising stub
propagates its error. -/
def ContainerFactory.configureDjango (b : CollabBehavior) (s : Container) :
    Except (Err × Container) Container :=
  let s1 := logEvent (Event.resolveCollaborator "DjangoConfigurator") s
  match b.djangoError with
  | some msg => .error (Err.collaboratorFailure msg, s1)
  | none => .ok (logEvent (Event.djangoConfigure "configs.django") s1)

/-- Embedding of `ContainerFactory._configure_logging`: resolve the
`LoggingConfigurator` collaborator and invoke `configure()`. -/
def ContainerFactory.configureLogging (b : CollabBehavior) (s : Container) :
    Except (Err × Container) Container :=
  let s1 := logEvent (Event.resolveCollaborator "LoggingConfigurator") s
  match b.loggingError with
  | some msg => .error (Err.collaboratorFailure msg, s1)
  | none => .ok (logEvent Event.loggingConfigure s1)

/-- Embedding of `ContainerFactory._instrument_libraries`: resolve the
`OpenTelemetryInstrumentor` collaborator and invoke
`instrument_libraries()`. -/
def ContainerFactory.instrumentLibraries (b : CollabBehavior) (s : Container) :
    Except (Err × Container) Container :=
  let s1 := logEvent (Event.resolveCollaborator "OpenTelemetryInstrumentor") s
  match b.instrumentError with
  | some msg => .error (Err.collaboratorFailure msg, s1)
  | none => .ok (logEvent Event.instrumentLibraries s1)

/-- Embedding of `ContainerFactory._register`: resolve the `Registry`
collaborator (a deferred import in the source) and invoke
`registry.register(container)`, which performs the actual
registration. -/
def ContainerFactory.registerServices (b : CollabBehavior) (s : Container) :
    Except (Err × Container) Container :=
  let s1 := logEvent (Event.resolveCollaborator "Registry") s
  match b.registerError with
  | some msg => .error (Err.collaboratorFailure msg, s1)
  | none => .ok (Registry.register (logEvent Event.registryRegisterInvoked s1))

/-- Embedding of `ContainerFactory.__call__` from
`src/ioc/container.py`: build a fresh container, then run the phases
configure-django, configure-logging, instrument-libraries in that
order, each gated on its boolean flag, then run the register-services
phase unconditionally, returning the container.  A raised error aborts
the remaining statements and propagates (Python exception
semantics). -/
def ContainerFactory.call (b : CollabBehavior)
    (configure_django configure_logging instrument_libraries : Bool) :
    Except (Err × Container) Container :=
  let s0 := Container.new
  match (if configure_django then ContainerFactory.configureDjango b s0 else .ok s0) with
  | .error e => .error e
  | .ok s1 =>
    match (if configure_logging then ContainerFactory.configureLogging b s1 else .ok s1) with
    | .error e => .error e
    | .ok s2 =>
      match (if instrument_libraries then ContainerFactory.instrumentLibraries b s2 else .ok s2) with
      | .error e => .error e
      | .ok s3 => ContainerFactory.registerServices b s3

/-- The source declares all three flags with default `True`
(`configure_django: bool = True`, etc.); this is the call with the
defaults in place. -/
def ContainerFactory.callDefaults (b : CollabBehavior) : Except (Err × Container) Container :=
  ContainerFactory.call b true true true

/-- Events of the configure-django phase. -/
def djangoTrace : List Event :=
  [Event.resolveCollaborator "DjangoConfigurator", Event.djangoConfigure "configs.django"]

/-- Events of the configure-logging phase. -/
def loggingTrace : List Event :=
  [Event.resolveCollaborator "LoggingConfigurator", Event.loggingConfigure]

/-- Events of the instrument-libraries phase. -/
def instrumentTrace : List Event :=
  [Event.resolveCollaborator "OpenTelemetryInstrumentor", Event.instrumentLibraries]

/-- Events of the register-services phase. -/
def registerTrace : List Event :=
  [Event.resolveCollaborator "Registry", Event.registryRegisterInvoked,
   Event.registered (ServiceKey.nameKey "FastAPIFactory")]

/-- The container a successful bootstrap with the given flags
produces: the FastAPIFactory binding in the registry, and the phase
traces of the enabled phases in order followed by the unconditional
register-services trace. -/
def expectedBootstrapContainer (cd cl il : Bool) : Container :=
  { registry := [(ServiceKey.nameKey "FastAPIFactory", fastApiBinding)],
    cache := [], inProgress := [], nextId := 0, factoryRuns := [],
    events := (if cd then djangoTrace else []) ++ (if cl then loggingTrace else []) ++
      (if il then instrumentTrace else []) ++ registerTrace }

/-- Is this event an invocation of a configurator or instrumentor
(phases 1-3)? -/
def isConfiguratorInvocation : Event → Bool
  | Event.djangoConfigure _ => true
  | Event.loggingConfigure => true
  | Event.instrumentLibraries => true
  | _ => false

/-- Is this event the registration invocation (the
`registry.register(container)` call of phase 4)? -/
def isRegistrationInvocation : Event → Bool
  | Event.registryRegisterInvoked => true
  | _ => false

/-- Is this event an action of the register-services phase? -/
def isRegisterPhaseEvent : Event → Bool
  | Event.resolveCollaborator n => n == "Registry"
  | Event.registryRegisterInvoked => true
  | Event.registered _ => true
  | _ => false

/-- Modelled from the spec (§4.2 cycle handling): while the listed
keys are resolved in order, resolution re-enters a key currently under
construction.  `hit` is the direct re-entry at the first listed key
(it is in the in-progress set, registered, and not served from the
cache); `step` descends into that key's factory with the key marked
in-progress; `tail` lets the first listed key resolve successfully and
places the re-entry further along the list — so the re-entry may occur
at any dependency position, not only the first. -/
inductive ReentersSeq : Container → List ServiceKey → Prop
  | hit (s : Container) (k : ServiceKey) (rest : List ServiceKey) (bd : Binding)
      (hlook : lookupBinding k s.registry = some bd)
      (hcache : bd.lifetime = Lifetime.SINGLETON → lookupCache k s.cache = none)
      (hin : k ∈ s.inProgress) : ReentersSeq s (k :: rest)
  | step (s : Container) (k : ServiceKey) (rest : List ServiceKey) (bd : Binding)
      (hlook : lookupBinding k s.registry = some bd)
      (hcache : bd.lifetime = Lifetime.SINGLETON → lookupCache k s.cache = none)
      (hnotin : k ∉ s.inProgress)
      (hrec : ReentersSeq { s with inProgress := k :: s.inProgress } bd.deps) :
      ReentersSeq s (k :: rest)
  | tail (s : Container) (k : ServiceKey) (rest : List ServiceKey) (i : Nat) (s2 : Container)
      (hok : Container.resolve k s = Except.ok (i, s2))
      (h : ReentersSeq s2 rest) : ReentersSeq s (k :: rest)

/-- Modelled from the spec (§4.2 cycle handling): resolving the key
transitively re-enters a key currently under construction before its
construction completes — directly, or through any position of any
factory's dependency list along the way. -/
def Reenters (s : Container) (k : ServiceKey) : Prop :=
  ReentersSeq s [k]

/-- A collaborator behavior in which the phase-1 Django configurator
raises the error `"boom"` (spec §8's error scenario stub). -/
def bBoom : CollabBehavior :=
  { djangoError := some "boom", loggingError := none, instrumentError := none,
    registerError := none }

/-- A collaborator behavior in which only the phase-4 registry
collaborator raises the error `"late"`. -/
def bBoomReg : CollabBehavior :=
  { djangoError := none, loggingError := none, instrumentError := none,
    registerError := some "late" }

/-- Is this event the logging configurator's configure invocation? -/
def isLoggingInvocation : Event → Bool
  | Event.loggingConfigure => true
  | _ => false

/-- Is this event the instrumentor's instrument invocation? -/
def isInstrumentInvocation : Event → Bool
  | Event.instrumentLibraries => true
  | _ => false

/-- The container state observed when the phase-1 Django configurator
raises: only its own resolution has happened. -/
def phase1ErrState : Container :=
  { Container.new with events := [Event.resolveCollaborator "DjangoConfigurator"] }

/-- The container state observed when the phase-2 logging configurator
raises: phase 1 ran if enabled, phases 3-4 never did. -/
def phase2ErrState (cd : Bool) : Container :=
  { Container.new with events :=
      (if cd then djangoTrace else []) ++ [Event.resolveCollaborator "LoggingConfigurator"] }

/-- The container state observed when the phase-3 instrumentor raises:
phases 1-2 ran if enabled, phase 4 never did. -/
def phase3ErrState (cd cl : Bool) : Container :=
  { Container.new with events :=
      (if cd then djangoTrace else []) ++ (if cl then loggingTrace else []) ++
      [Event.resolveCollaborator "OpenTelemetryInstrumentor"] }

/-- The container state observed when the phase-4 registry collaborator
raises: the registration itself never happened. -/
def phase4ErrState (cd cl il : Bool) : Container :=
  { Container.new with events :=
      (if cd then djangoTrace else []) ++ (if cl then loggingTrace else []) ++
      (if il then instrumentTrace else []) ++ [Event.resolveCollaborator "Registry"] }

/-- A key for a concrete circular-dependency scenario. -/
def kA : ServiceKey := ServiceKey.typeKey "A"

/-- A second key for the circular-dependency scenario. -/
def kB : ServiceKey := ServiceKey.typeKey "B"

/-- Binding whose factory resolves `kB`. -/
def bindA : Binding := { deps := [kB], returnsFirstDep := false, lifetime := Lifetime.SINGLETON }

/-- Binding whose factory resolves `kA`, closing the cycle. -/
def bindB : Binding := { deps := [kA], returnsFirstDep := false, lifetime := Lifetime.TRANSIENT }

/-- A container with the two-key dependency cycle `kA -> kB -> kA`. -/
def cycContainer : Container :=
  { Container.new with registry := [(kA, bindA), (kB, bindB)] }

/-- A leaf key for the second circular-dependency scenario. -/
def kX : ServiceKey := ServiceKey.typeKey "X"

/-- A key whose factory resolves itself at the *second* dependency
position. -/
def kC : ServiceKey := ServiceKey.typeKey "C"

/-- A leaf binding with no dependencies. -/
def bindX : Binding := { deps := [], returnsFirstDep := false, lifetime := Lifetime.SINGLETON }

/-- Binding whose factory first resolves the leaf `kX` and then its
own key `kC`: a self-cycle through a non-head dependency position. -/
def bindC : Binding :=
  { deps := [kX, kC], returnsFirstDep := false, lifetime := Lifetime.SINGLETON }

/-- A container where `kC` transitively re-enters itself via the
second position of its dependency list. -/
def cyc2Container : Container :=
  { Container.new with registry := [(kC, bindC), (kX, bindX)] }

/-- The state in the middle of resolving `kC` in `cyc2Container`:
`kC` is marked in progress and the leaf `kX` has just been resolved. -/
def cyc2Mid : Container :=
  { cyc2Container with inProgress := [kC], cache := [(kX, 0)], nextId := 1, factoryRuns := [kX] }

/-- A singleton service key used as a concrete resolution scenario. -/
def kSvc : ServiceKey := ServiceKey.typeKey "Svc"

/-- The SINGLETON binding of the concrete resolution scenario. -/
def bindSvc : Binding :=
  { deps := [], returnsFirstDep := false, lifetime := Lifetime.SINGLETON }

/-- A container with a single registered SINGLETON service. -/
def svcContainer : Container :=
  { Container.new with registry := [(kSvc, bindSvc)] }

/-- The state after `kSvc` has been resolved once in `svcContainer`:
instance id 0 is cached and the factory has run once. -/
def svcResolved : Container :=
  { svcContainer with cache := [(kSvc, 0)], nextId := 1, factoryRuns := [kSvc] }

/-! ## Helper lemmas about the resolver -/

theorem countKey_append (k : ServiceKey) (l1 l2 : List ServiceKey) :
    countKey k (l1 ++ l2) = countKey k l1 + countKey k l2 := by
  induction l1 with
  | nil => simp [countKey]
  | cons a rest ih => simp [countKey, ih]; omega

theorem removeKey_cons_self (k : ServiceKey) (l : List ServiceKey) :
    removeKey k (k :: l) = l := by
  simp [removeKey]

theorem lookupBinding_mem {k : ServiceKey} {reg : List (ServiceKey × Binding)} {bd : Binding}
    (h : lookupBinding k reg = some bd) : k ∈ reg.map Prod.fst := by
  induction reg with
  | nil => simp [lookupBinding] at h
  | cons p rest ih =>
    obtain ⟨k1, b1⟩ := p
    by_cases hk : k1 = k
    · subst hk; simp
    · simp only [lookupBinding, if_neg hk] at h
      simp [ih h]

theorem lookupBinding_deps_le_maxFanout {k : ServiceKey} {reg : List (ServiceKey × Binding)}
    {bd : Binding} (h : lookupBinding k reg = some bd) : bd.deps.length ≤ maxFanout reg := by
  induction reg with
  | nil => simp [lookupBinding] at h
  | cons p rest ih =>
    obtain ⟨k1, b1⟩ := p
    by_cases hk : k1 = k
    · simp only [lookupBinding, if_pos hk] at h
      cases h
      simp [maxFanout]
    · simp only [lookupBinding, if_neg hk] at h
      have := ih h
      simp only [maxFanout, List.foldr_cons] at *
      omega

theorem finishConstruction_registry (k : ServiceKey) (bd : Binding) (depIds : List Nat)
    (s2 : Container) : (finishConstruction k bd depIds s2).2.registry = s2.registry := by
  cases hrf : bd.returnsFirstDep <;> cases depIds <;> simp [finishConstruction, hrf]

theorem finishConstruction_inProgress (k : ServiceKey) (bd : Binding) (depIds : List Nat)
    (s2 : Container) :
    (finishConstruction k bd depIds s2).2.inProgress = removeKey k s2.inProgress := by
  cases hrf : bd.returnsFirstDep <;> cases depIds <;> simp [finishConstruction, hrf]

theorem finishConstruction_factoryRuns (k : ServiceKey) (bd : Binding) (depIds : List Nat)
    (s2 : Container) :
    (finishConstruction k bd depIds s2).2.factoryRuns = s2.factoryRuns ++ [k] := by
  cases hrf : bd.returnsFirstDep <;> cases depIds <;> simp [finishConstruction, hrf]

theorem finishConstruction_events (k : ServiceKey) (bd : Binding) (depIds : List Nat)
    (s2 : Container) : (finishConstruction k bd depIds s2).2.events = s2.events := by
  cases hrf : bd.returnsFirstDep <;> cases depIds <;> simp [finishConstruction, hrf]

theorem finishConstruction_cache_self (k : ServiceKey) (bd : Binding) (depIds : List Nat)
    (s2 : Container) (hsing : bd.lifetime = Lifetime.SINGLETON) :
    lookupCache k (finishConstruction k bd depIds s2).2.cache =
      some (finishConstruction k bd depIds s2).1 := by
  cases hrf : bd.returnsFirstDep <;> cases depIds <;>
    simp [finishConstruction, hrf, hsing, lookupCache]

/-- A successful resolution leaves the registry, the in-progress set
and the bootstrap event trace unchanged, and never runs the factory of
a key that is currently under construction. -/
theorem resolveSeq_ok_state (fuel : Nat) :
    ∀ ks s is s1, resolveSeq fuel ks s = Except.ok (is, s1) →
      s1.registry = s.registry ∧ s1.inProgress = s.inProgress ∧ s1.events = s.events ∧
      ∀ K, K ∈ s.inProgress → countKey K s1.factoryRuns = countKey K s.factoryRuns := by
  induction fuel with
  | zero =>
    intro ks s is s1 h
    cases ks with
    | nil =>
      simp only [resolveSeq, Except.ok.injEq, Prod.mk.injEq] at h
      obtain ⟨-, h2⟩ := h
      subst h2
      exact ⟨rfl, rfl, rfl, fun K _ => rfl⟩
    | cons k rest => simp [resolveSeq] at h
  | succ n ih =>
    intro ks s is s1 h
    cases ks with
    | nil =>
      simp only [resolveSeq, Except.ok.injEq, Prod.mk.injEq] at h
      obtain ⟨-, h2⟩ := h
      subst h2
      exact ⟨rfl, rfl, rfl, fun K _ => rfl⟩
    | cons k rest =>
      simp only [resolveSeq] at h
      cases hl : lookupBinding k s.registry with
      | none => simp [hl] at h
      | some bd =>
        simp only [hl] at h
        cases hc : (if bd.lifetime = Lifetime.SINGLETON then lookupCache k s.cache else none) with
        | some i =>
          simp only [hc] at h
          cases hr : resolveSeq n rest s with
          | error e => simp [hr] at h
          | ok p =>
            obtain ⟨is2, s4⟩ := p
            simp only [hr, Except.ok.injEq, Prod.mk.injEq] at h
            obtain ⟨-, h2⟩ := h
            subst h2
            exact ih rest s is2 s4 hr
        | none =>
          simp only [hc] at h
          by_cases hin : k ∈ s.inProgress
          · simp [hin] at h
          · simp only [if_neg hin] at h
            cases hd : resolveSeq n bd.deps { s with inProgress := k :: s.inProgress } with
            | error e => simp [hd] at h
            | ok p =>
              obtain ⟨depIds, s2⟩ := p
              simp only [hd] at h
              cases hrest : resolveSeq n rest (finishConstruction k bd depIds s2).2 with
              | error e => simp [hrest] at h
              | ok p2 =>
                obtain ⟨is3, s4⟩ := p2
                simp only [hrest, Except.ok.injEq, Prod.mk.injEq] at h
                obtain ⟨-, h2⟩ := h
                subst h2
                obtain ⟨hreg2, hip2, hev2, hcnt2⟩ := ih _ _ _ _ hd
                obtain ⟨hreg4, hip4, hev4, hcnt4⟩ := ih _ _ _ _ hrest
                have hfcreg := finishConstruction_registry k bd depIds s2
                have hfcip := finishConstruction_inProgress k bd depIds s2
                have hfcev := finishConstruction_events k bd depIds s2
                have hfcfr := finishConstruction_factoryRuns k bd depIds s2
                refine ⟨by rw [hreg4, hfcreg, hreg2],
                  by rw [hip4, hfcip, hip2, removeKey_cons_self],
                  by rw [hev4, hfcev, hev2], ?_⟩
                intro K hK
                have hKne : K ≠ k := fun hKeq => hin (hKeq ▸ hK)
                have hKin2 : K ∈ (finishConstruction k bd depIds s2).2.inProgress := by
                  rw [hfcip, hip2, removeKey_cons_self]; exact hK
                have e4 := hcnt4 K hKin2
                have e2 := hcnt2 K (List.mem_cons_of_mem _ hK)
                rw [e4, hfcfr, countKey_append, e2]
                simp [countKey, Ne.symm hKne]

/-- A registered key that is not under construction contributes to
`freeKeys`. -/
theorem mem_freeKeys {k : ServiceKey} {s : Container} {bd : Binding}
    (hlook : lookupBinding k s.registry = some bd) (hnotin : k ∉ s.inProgress) :
    k ∈ freeKeys s := by
  simp only [freeKeys, List.mem_filter, decide_eq_true_eq]
  exact ⟨lookupBinding_mem hlook, hnotin⟩

/-- Marking a registered, not-yet-in-progress key as in progress
strictly shrinks the set of free keys: the resolver's recursion-depth
measure. -/
theorem freeKeys_push_lt {k : ServiceKey} {s : Container} {bd : Binding}
    (hlook : lookupBinding k s.registry = some bd) (hnotin : k ∉ s.inProgress) :
    (freeKeys { s with inProgress := k :: s.inProgress }).length < (freeKeys s).length := by
  have hsub : List.Sublist (freeKeys { s with inProgress := k :: s.inProgress }) (freeKeys s) := by
    apply List.monotone_filter_right
    intro a ha
    simp only [decide_eq_true_eq] at *
    intro hmem2
    exact ha (List.mem_cons_of_mem _ hmem2)
  have hin_filter : k ∈ freeKeys s := mem_freeKeys hlook hnotin
  have hnot_filter : k ∉ freeKeys { s with inProgress := k :: s.inProgress } := by
    simp only [freeKeys, List.mem_filter, decide_eq_true_eq]
    rintro ⟨-, hk⟩
    exact hk (List.mem_cons_self _ _)
  rcases Nat.eq_or_lt_of_le hsub.length_le with heq | hlt
  · exact absurd ((hsub.eq_of_length heq).symm ▸ hin_filter) hnot_filter
  · exact hlt

/-- With fuel exceeding the (measure × fanout)-style bound, the
resolver never exhausts its fuel: on every input, resolution reaches a
genuine result (an instance list or a genuine error) — the embedding's
recursion always terminates within the bound. -/
theorem resolveSeq_no_outOfFuel (fuel : Nat) :
    ∀ ks s, (freeKeys s).length * (maxFanout s.registry + 1) + ks.length < fuel →
      resolveSeq fuel ks s ≠ Except.error Err.outOfFuel := by
  induction fuel with
  | zero => intro ks s h; exact absurd h (Nat.not_lt_zero _)
  | succ n ih =>
    intro ks s hfuel hcontra
    cases ks with
    | nil => simp [resolveSeq] at hcontra
    | cons k rest =>
      simp only [resolveSeq] at hcontra
      cases hl : lookupBinding k s.registry with
      | none => simp [hl] at hcontra
      | some bd =>
        simp only [hl] at hcontra
        cases hc : (if bd.lifetime = Lifetime.SINGLETON then lookupCache k s.cache else none) with
        | some i =>
          simp only [hc] at hcontra
          cases hr : resolveSeq n rest s with
          | error e =>
            simp only [hr, Except.error.injEq] at hcontra
            subst hcontra
            refine ih rest s ?_ hr
            simp only [List.length_cons] at hfuel
            omega
          | ok p =>
            obtain ⟨is2, s4⟩ := p
            simp [hr] at hcontra
        | none =>
          simp only [hc] at hcontra
          by_cases hin : k ∈ s.inProgress
          · simp [hin] at hcontra
          · simp only [if_neg hin] at hcontra
            have hlt := freeKeys_push_lt hl hin
            have hfan := lookupBinding_deps_le_maxFanout hl
            have hsucc : (freeKeys { s with inProgress := k :: s.inProgress }).length + 1 ≤
                (freeKeys s).length := hlt
            have hmul : ((freeKeys { s with inProgress := k :: s.inProgress }).length + 1) *
                (maxFanout s.registry + 1) ≤
                (freeKeys s).length * (maxFanout s.registry + 1) :=
              Nat.mul_le_mul_right _ hsucc
            have hsm : ((freeKeys { s with inProgress := k :: s.inProgress }).length + 1) *
                (maxFanout s.registry + 1) =
                (freeKeys { s with inProgress := k :: s.inProgress }).length *
                  (maxFanout s.registry + 1) + (maxFanout s.registry + 1) := by ring
            cases hd : resolveSeq n bd.deps { s with inProgress := k :: s.inProgress } with
            | error e =>
              simp only [hd, Except.error.injEq] at hcontra
              subst hcontra
              refine ih bd.deps { s with inProgress := k :: s.inProgress } ?_ hd
              show (freeKeys { s with inProgress := k :: s.inProgress }).length *
                (maxFanout s.registry + 1) + bd.deps.length < n
              simp only [List.length_cons] at hfuel
              omega
            | ok p =>
              obtain ⟨depIds, s2⟩ := p
              simp only [hd] at hcontra
              cases hrest : resolveSeq n rest (finishConstruction k bd depIds s2).2 with
              | error e =>
                simp only [hrest, Except.error.injEq] at hcontra
                subst hcontra
                refine ih rest (finishConstruction k bd depIds s2).2 ?_ hrest
                obtain ⟨hreg2, hip2, -, -⟩ := resolveSeq_ok_state n _ _ _ _ hd
                have hregf : (finishConstruction k bd depIds s2).2.registry = s.registry := by
                  rw [finishConstruction_registry, hreg2]
                have hipf : (finishConstruction k bd depIds s2).2.inProgress = s.inProgress := by
                  rw [finishConstruction_inProgress, hip2, removeKey_cons_self]
                have hfree : freeKeys (finishConstruction k bd depIds s2).2 = freeKeys s := by
                  simp only [freeKeys, hregf, hipf]
                rw [hfree, hregf]
                simp only [List.length_cons] at hfuel
                omega
              | ok p2 =>
                obtain ⟨is3, s4⟩ := p2
                simp [hrest] at hcontra

/-- Resolution of a nonempty key list factors through resolution of
its head alone. -/
theorem resolveSeq_cons (fuel : Nat) (d : ServiceKey) (rest : List ServiceKey) (s : Container) :
    resolveSeq (fuel + 1) (d :: rest) s =
      match resolveSeq (fuel + 1) [d] s with
      | .error e => .error e
      | .ok (ids, s2) =>
        match resolveSeq fuel rest s2 with
        | .error e => .error e
        | .ok (is, s3) => .ok (ids.headD 0 :: is, s3) := by
  simp only [resolveSeq]
  cases hl : lookupBinding d s.registry with
  | none => rfl
  | some bd =>
    simp only [hl]
    cases hc : (if bd.lifetime = Lifetime.SINGLETON then lookupCache d s.cache else none) with
    | some i =>
      simp only [hc]
      cases hr : resolveSeq fuel rest s with
      | error e => rfl
      | ok p =>
        obtain ⟨is, s4⟩ := p
        simp [hr]
    | none =>
      simp only [hc]
      by_cases hin : d ∈ s.inProgress
      · simp [hin]
      · simp only [if_neg hin]
        cases hd : resolveSeq fuel bd.deps { s with inProgress := d :: s.inProgress } with
        | error e => rfl
        | ok p =>
          obtain ⟨depIds, s2⟩ := p
          simp only [hd]
          cases hrest : resolveSeq fuel rest (finishConstruction d bd depIds s2).2 with
          | error e => simp [hrest]
          | ok p2 =>
            obtain ⟨is, s4⟩ := p2
            simp [hrest]

/-- Above the fuel bound, the resolver's result does not depend on the
exact fuel. -/
theorem resolveSeq_fuel_irrel (fuel1 : Nat) :
    ∀ fuel2 ks s,
      (freeKeys s).length * (maxFanout s.registry + 1) + ks.length < fuel1 →
      (freeKeys s).length * (maxFanout s.registry + 1) + ks.length < fuel2 →
      resolveSeq fuel1 ks s = resolveSeq fuel2 ks s := by
  induction fuel1 with
  | zero => intro fuel2 ks s h1 h2; exact absurd h1 (Nat.not_lt_zero _)
  | succ n1 ih =>
    intro fuel2 ks s h1 h2
    cases ks with
    | nil =>
      cases fuel2 with
      | zero => exact absurd h2 (Nat.not_lt_zero _)
      | succ n2 => simp [resolveSeq]
    | cons k rest =>
      cases fuel2 with
      | zero => exact absurd h2 (Nat.not_lt_zero _)
      | succ n2 =>
        simp only [List.length_cons] at h1 h2
        simp only [resolveSeq]
        cases hl : lookupBinding k s.registry with
        | none => simp [hl]
        | some bd =>
          simp only [hl]
          cases hc : (if bd.lifetime = Lifetime.SINGLETON then lookupCache k s.cache
              else none) with
          | some i =>
            simp only [hc]
            have hr := ih n2 rest s (by omega) (by omega)
            rw [hr]
          | none =>
            simp only [hc]
            by_cases hin : k ∈ s.inProgress
            · simp [hin]
            · simp only [if_neg hin]
              have hlt := freeKeys_push_lt hl hin
              have hsucc : (freeKeys { s with inProgress := k :: s.inProgress }).length + 1 ≤
                  (freeKeys s).length := hlt
              have hmul : ((freeKeys { s with inProgress := k :: s.inProgress }).length + 1) *
                  (maxFanout s.registry + 1) ≤
                  (freeKeys s).length * (maxFanout s.registry + 1) :=
                Nat.mul_le_mul_right _ hsucc
              have hsm : ((freeKeys { s with inProgress := k :: s.inProgress }).length + 1) *
                  (maxFanout s.registry + 1) =
                  (freeKeys { s with inProgress := k :: s.inProgress }).length *
                    (maxFanout s.registry + 1) + (maxFanout s.registry + 1) := by ring
              have hfan := lookupBinding_deps_le_maxFanout hl
              have hd := ih n2 bd.deps { s with inProgress := k :: s.inProgress }
                (by
                  show (freeKeys { s with inProgress := k :: s.inProgress }).length *
                    (maxFanout s.registry + 1) + bd.deps.length < n1
                  omega)
                (by
                  show (freeKeys { s with inProgress := k :: s.inProgress }).length *
                    (maxFanout s.registry + 1) + bd.deps.length < n2
                  omega)
              rw [hd]
              cases hdr : resolveSeq n2 bd.deps { s with inProgress := k :: s.inProgress } with
              | error e => simp [hdr]
              | ok p =>
                obtain ⟨depIds, s2⟩ := p
                simp only [hdr]
                obtain ⟨hreg2, hip2, -, -⟩ := resolveSeq_ok_state n2 _ _ _ _ hdr
                have hregf : (finishConstruction k bd depIds s2).2.registry = s.registry := by
                  rw [finishConstruction_registry, hreg2]
                have hipf : (finishConstruction k bd depIds s2).2.inProgress = s.inProgress := by
                  rw [finishConstruction_inProgress, hip2, removeKey_cons_self]
                have hfree : freeKeys (finishConstruction k bd depIds s2).2 = freeKeys s := by
                  simp only [freeKeys, hregf, hipf]
                have hrest := ih n2 rest (finishConstruction k bd depIds s2).2
                  (by rw [hfree, hregf]; omega) (by rw [hfree, hregf]; omega)
                rw [hrest]

/-- If resolution of the listed keys transitively re-enters a key
under construction, the resolver fails with a `circularDependency`
error (and the error propagates up through the dependency chain). -/
theorem resolveSeq_reentersSeq {s : Container} {ds : List ServiceKey} (hre : ReentersSeq s ds) :
    ∀ fuel, (freeKeys s).length * (maxFanout s.registry + 1) + ds.length < fuel →
      ∃ ck, resolveSeq fuel ds s = Except.error (Err.circularDependency ck) := by
  induction hre with
  | hit s k rest bd hlook hcache hin =>
    intro fuel hfuel
    cases fuel with
    | zero => exact absurd hfuel (Nat.not_lt_zero _)
    | succ n =>
      refine ⟨k, ?_⟩
      have hcnone : (if bd.lifetime = Lifetime.SINGLETON then lookupCache k s.cache else none) =
          none := by
        by_cases hs : bd.lifetime = Lifetime.SINGLETON
        · simp [hs, hcache hs]
        · simp [hs]
      simp [resolveSeq, hlook, hcnone, hin]
  | step s k rest bd hlook hcache hnotin hrec ih =>
    intro fuel hfuel
    cases fuel with
    | zero => exact absurd hfuel (Nat.not_lt_zero _)
    | succ n =>
      simp only [List.length_cons] at hfuel
      have hlt := freeKeys_push_lt hlook hnotin
      have hsucc : (freeKeys { s with inProgress := k :: s.inProgress }).length + 1 ≤
          (freeKeys s).length := hlt
      have hmul : ((freeKeys { s with inProgress := k :: s.inProgress }).length + 1) *
          (maxFanout s.registry + 1) ≤ (freeKeys s).length * (maxFanout s.registry + 1) :=
        Nat.mul_le_mul_right _ hsucc
      have hsm : ((freeKeys { s with inProgress := k :: s.inProgress }).length + 1) *
          (maxFanout s.registry + 1) =
          (freeKeys { s with inProgress := k :: s.inProgress }).length *
            (maxFanout s.registry + 1) + (maxFanout s.registry + 1) := by ring
      have hfan := lookupBinding_deps_le_maxFanout hlook
      obtain ⟨ck, hck⟩ := ih n (by
        show (freeKeys { s with inProgress := k :: s.inProgress }).length *
          (maxFanout s.registry + 1) + bd.deps.length < n
        omega)
      refine ⟨ck, ?_⟩
      have hcnone : (if bd.lifetime = Lifetime.SINGLETON then lookupCache k s.cache else none) =
          none := by
        by_cases hs : bd.lifetime = Lifetime.SINGLETON
        · simp [hs, hcache hs]
        · simp [hs]
      simp only [resolveSeq, hlook, hcnone, if_neg hnotin, hck]
  | tail s k rest i s2 hok hre2 ih =>
    intro fuel hfuel
    cases fuel with
    | zero => exact absurd hfuel (Nat.not_lt_zero _)
    | succ n =>
      simp only [List.length_cons] at hfuel
      simp only [Container.resolve] at hok
      cases hres : resolveSeq (fuelBound s) [k] s with
      | error e => simp [hres] at hok
      | ok p =>
        obtain ⟨ids, st⟩ := p
        simp only [hres, Except.ok.injEq, Prod.mk.injEq] at hok
        obtain ⟨-, hst⟩ := hok
        subst hst
        have hfb : fuelBound s =
            ((freeKeys s).length * (maxFanout s.registry + 1) + 1) + 1 := rfl
        have hirr : resolveSeq (n + 1) [k] s = resolveSeq (fuelBound s) [k] s :=
          resolveSeq_fuel_irrel (n + 1) (fuelBound s) [k] s
            (by simp only [List.length_cons, List.length_nil]; omega)
            (by simp only [List.length_cons, List.length_nil]; omega)
        obtain ⟨hreg2, hip2, -, -⟩ := resolveSeq_ok_state (fuelBound s) _ _ _ _ hres
        have hfree2 : freeKeys st = freeKeys s := by
          simp only [freeKeys, hreg2, hip2]
        obtain ⟨ck, hck⟩ := ih n (by rw [hfree2, hreg2]; omega)
        refine ⟨ck, ?_⟩
        rw [resolveSeq_cons n k rest s, hirr, hres]
        simp [hck]

/-! ## Helper lemmas about the bootstrap -/

theorem configureDjango_ok {b : CollabBehavior} {s c : Container}
    (h : ContainerFactory.configureDjango b s = Except.ok c) :
    c = { s with events := s.events ++ djangoTrace } := by
  cases hb : b.djangoError with
  | some msg => simp [ContainerFactory.configureDjango, hb] at h
  | none =>
    simp only [ContainerFactory.configureDjango, hb, Except.ok.injEq] at h
    rw [← h]
    simp [logEvent, djangoTrace]

theorem configureLogging_ok {b : CollabBehavior} {s c : Container}
    (h : ContainerFactory.configureLogging b s = Except.ok c) :
    c = { s with events := s.events ++ loggingTrace } := by
  cases hb : b.loggingError with
  | some msg => simp [ContainerFactory.configureLogging, hb] at h
  | none =>
    simp only [ContainerFactory.configureLogging, hb, Except.ok.injEq] at h
    rw [← h]
    simp [logEvent, loggingTrace]

theorem instrumentLibraries_ok {b : CollabBehavior} {s c : Container}
    (h : ContainerFactory.instrumentLibraries b s = Except.ok c) :
    c = { s with events := s.events ++ instrumentTrace } := by
  cases hb : b.instrumentError with
  | some msg => simp [ContainerFactory.instrumentLibraries, hb] at h
  | none =>
    simp only [ContainerFactory.instrumentLibraries, hb, Except.ok.injEq] at h
    rw [← h]
    simp [logEvent, instrumentTrace]

theorem registerServices_ok {b : CollabBehavior} {s c : Container}
    (h : ContainerFactory.registerServices b s = Except.ok c) :
    c = { s with
      registry := (ServiceKey.nameKey "FastAPIFactory", fastApiBinding) :: s.registry,
      events := s.events ++ registerTrace } := by
  cases hb : b.registerError with
  | some msg => simp [ContainerFactory.registerServices, hb] at h
  | none =>
    simp only [ContainerFactory.registerServices, hb, Except.ok.injEq] at h
    rw [← h]
    simp [Registry.register, Container.register, logEvent, registerTrace]

theorem flagGate_ok {flag : Bool} {act : Container → Except (Err × Container) Container}
    {tr : List Event} {s c : Container}
    (hact : ∀ c2, act s = Except.ok c2 → c2 = { s with events := s.events ++ tr })
    (h : (if flag then act s else Except.ok s) = Except.ok c) :
    c = { s with events := s.events ++ (if flag then tr else []) } := by
  cases flag with
  | false =>
    simp only [if_neg Bool.false_ne_true, Except.ok.injEq] at h
    rw [← h]
    simp
  | true =>
    simp only [if_pos rfl] at h
    rw [hact c h]
    simp

/-- A successful bootstrap call produces exactly the expected
container: the FastAPIFactory registration and the traces of the
enabled phases in source order. -/
theorem call_ok_eq {b : CollabBehavior} {cd cl il : Bool} {c : Container}
    (h : ContainerFactory.call b cd cl il = Except.ok c) :
    c = expectedBootstrapContainer cd cl il := by
  simp only [ContainerFactory.call] at h
  cases h1 : (if cd then ContainerFactory.configureDjango b Container.new
      else Except.ok Container.new) with
  | error e => simp [h1] at h
  | ok s1 =>
    simp only [h1] at h
    have hs1 := flagGate_ok (fun c2 hc2 => configureDjango_ok hc2) h1
    cases h2 : (if cl then ContainerFactory.configureLogging b s1 else Except.ok s1) with
    | error e => simp [h2] at h
    | ok s2 =>
      simp only [h2] at h
      have hs2 := flagGate_ok (fun c2 hc2 => configureLogging_ok hc2) h2
      cases h3 : (if il then ContainerFactory.instrumentLibraries b s2 else Except.ok s2) with
      | error e => simp [h3] at h
      | ok s3 =>
        simp only [h3] at h
        have hs3 := flagGate_ok (fun c2 hc2 => instrumentLibraries_ok hc2) h3
        have hc := registerServices_ok h
        subst hs1 hs2 hs3 hc
        simp [expectedBootstrapContainer, Container.new, List.append_assoc]

/-- A SINGLETON key whose instance is cached resolves to the cached
instance and leaves the container untouched. -/
theorem resolve_cache_hit {K : ServiceKey} {s : Container} {bd : Binding} {i : Nat}
    (hlook : lookupBinding K s.registry = some bd)
    (hsing : bd.lifetime = Lifetime.SINGLETON)
    (hcache : lookupCache K s.cache = some i) :
    Container.resolve K s = Except.ok (i, s) := by
  have hfb : fuelBound s = ((freeKeys s).length * (maxFanout s.registry + 1) + 1) + 1 := rfl
  have hcsc : (if bd.lifetime = Lifetime.SINGLETON then lookupCache K s.cache else none) =
      some i := by rw [if_pos hsing, hcache]
  simp only [Container.resolve, hfb, resolveSeq, hlook, hcsc, List.headD]

/-! ## Claim theorems -/

/-- Claim C1, counterexample: with all three flags false the bootstrap
still performs one registration invocation and returns a container
whose registry is not empty — the register-services call in the source
is not gated by any flag. -/
theorem c1_counterexample :
    ContainerFactory.call CollabBehavior.allOk false false false =
      Except.ok (expectedBootstrapContainer false false false) ∧
    (expectedBootstrapContainer false false false).registry ≠ [] ∧
    ((expectedBootstrapContainer false false false).events.filter
      isRegistrationInvocation).length = 1 := by
  refine ⟨by decide, by decide, by decide⟩

/-- Claim C1 (amended): bootstrap with all three flags false performs
zero configurator and instrumentor invocations, but the
register-services phase still runs unconditionally: exactly one
registration invocation occurs and the returned container's registry
holds exactly the FastAPIFactory binding. -/
theorem c1_all_flags_false (b : CollabBehavior) (hb : b.registerError = none) :
    ContainerFactory.call b false false false =
      Except.ok (expectedBootstrapContainer false false false) ∧
    ((expectedBootstrapContainer false false false).events.filter
      isConfiguratorInvocation) = [] ∧
    ((expectedBootstrapContainer false false false).events.filter
      isRegistrationInvocation).length = 1 ∧
    (expectedBootstrapContainer false false false).registry =
      [(ServiceKey.nameKey "FastAPIFactory", fastApiBinding)] := by
  refine ⟨?_, by decide, by decide, by decide⟩
  simp [ContainerFactory.call, ContainerFactory.registerServices, hb, Registry.register,
    Container.register, logEvent, Container.new, expectedBootstrapContainer, registerTrace,
    fastApiBinding]

/-- Claim C1, witness: the amended statement at the all-successful
collaborator behavior. -/
theorem c1_witness :
    ContainerFactory.call CollabBehavior.allOk false false false =
      Except.ok (expectedBootstrapContainer false false false) ∧
    ((expectedBootstrapContainer false false false).events.filter
      isConfiguratorInvocation) = [] ∧
    ((expectedBootstrapContainer false false false).events.filter
      isRegistrationInvocation).length = 1 ∧
    (expectedBootstrapContainer false false false).registry =
      [(ServiceKey.nameKey "FastAPIFactory", fastApiBinding)] :=
  c1_all_flags_false CollabBehavior.allOk rfl

/-- Claim C4: for every combination of the three boolean flags, the
bootstrap runs exactly the enabled phases, in source order, and the
register-services phase always runs: the result is exactly the
expected container whose event trace is the concatenation of the
enabled phase traces followed by the register trace. -/
theorem c4_flag_combinations (cd cl il : Bool) :
    ContainerFactory.call CollabBehavior.allOk cd cl il =
      Except.ok (expectedBootstrapContainer cd cl il) := by
  cases cd <;> cases cl <;> cases il <;> decide

/-- Claim C5: the bootstrap entry point takes the three boolean flags
(whose source defaults are all true, embedded by `callDefaults`), and
when every collaborator succeeds it returns the fully configured
container it constructed. -/
theorem c5_entry_point (b : CollabBehavior) :
    ContainerFactory.callDefaults b = ContainerFactory.call b true true true ∧
    (b.djangoError = none → b.loggingError = none → b.instrumentError = none →
      b.registerError = none →
      ContainerFactory.call b true true true =
        Except.ok (expectedBootstrapContainer true true true)) := by
  refine ⟨rfl, ?_⟩
  intro h1 h2 h3 h4
  obtain ⟨e1, e2, e3, e4⟩ := b
  simp only at h1 h2 h3 h4
  subst h1 h2 h3 h4
  decide

/-- Claim C5, witness: the defaulted call with all-successful
collaborators returns the configured container. -/
theorem c5_witness :
    ContainerFactory.call CollabBehavior.allOk true true true =
      Except.ok (expectedBootstrapContainer true true true) :=
  (c5_entry_point CollabBehavior.allOk).2 rfl rfl rfl rfl

/-- Claim C9: whatever the flags and collaborator behavior, a
container returned by the bootstrap always carries a binding under the
string key "FastAPIFactory" with lifetime SINGLETON — the
register-services phase is unconditional. -/
theorem c9_register_unconditional (b : CollabBehavior) (cd cl il : Bool) (c : Container)
    (h : ContainerFactory.call b cd cl il = Except.ok c) :
    lookupBinding (ServiceKey.nameKey "FastAPIFactory") c.registry = some fastApiBinding ∧
    fastApiBinding.lifetime = Lifetime.SINGLETON := by
  have hc := call_ok_eq h
  subst hc
  exact ⟨rfl, rfl⟩

/-- Claim C9, witness: the property at a concrete successful
bootstrap. -/
theorem c9_witness :
    lookupBinding (ServiceKey.nameKey "FastAPIFactory")
      (expectedBootstrapContainer true true true).registry = some fastApiBinding ∧
    fastApiBinding.lifetime = Lifetime.SINGLETON :=
  c9_register_unconditional CollabBehavior.allOk true true true
    (expectedBootstrapContainer true true true) (by decide)

/-- Claim C7: resolving a key with no binding in the registry fails
with `unregisteredService` — no default or null instance is returned
and nothing is retried. -/
theorem c7_unregistered_fails (k : ServiceKey) (s : Container)
    (h : lookupBinding k s.registry = none) :
    Container.resolve k s = Except.error (Err.unregisteredService k) := by
  have hfb : fuelBound s = ((freeKeys s).length * (maxFanout s.registry + 1) + 1) + 1 := rfl
  simp only [Container.resolve, hfb, resolveSeq, h]

/-- Claim C7, witness: resolving a never-registered key on the fresh
container. -/
theorem c7_witness :
    Container.resolve (ServiceKey.typeKey "Missing") Container.new =
      Except.error (Err.unregisteredService (ServiceKey.typeKey "Missing")) :=
  c7_unregistered_fails (ServiceKey.typeKey "Missing") Container.new rfl

/-- Claim C2: whenever the bootstrap is called with the Django flag
true and succeeds, the Django configurator's configure invocation
appears in the trace strictly before every action of the
register-services phase. -/
theorem c2_django_before_register (b : CollabBehavior) (cl il : Bool) (c : Container)
    (h : ContainerFactory.call b true cl il = Except.ok c) :
    ∀ j e, c.events.get? j = some e → isRegisterPhaseEvent e = true →
      ∃ j2, j2 < j ∧ c.events.get? j2 = some (Event.djangoConfigure "configs.django") := by
  have hc := call_ok_eq h
  subst hc
  have hev : (expectedBootstrapContainer true cl il).events =
      Event.resolveCollaborator "DjangoConfigurator" ::
      Event.djangoConfigure "configs.django" ::
      ((if cl then loggingTrace else []) ++ (if il then instrumentTrace else []) ++
        registerTrace) := by
    simp [expectedBootstrapContainer, djangoTrace]
  intro j e hj he
  refine ⟨1, ?_, ?_⟩
  · rcases j with _ | _ | n
    · rw [hev] at hj
      simp only [List.get?_cons_zero, Option.some.injEq] at hj
      rw [← hj] at he
      exact absurd he (by decide)
    · rw [hev] at hj
      simp only [List.get?_cons_succ, List.get?_cons_zero, Option.some.injEq] at hj
      rw [← hj] at he
      exact absurd he (by decide)
    · omega
  · rw [hev]
    rfl

/-- Claim C2, witness: at the all-successful bootstrap with every flag
true, the register-services phase's first action (index 6) is preceded
by the Django configure invocation. -/
theorem c2_witness :
    ∃ j2, j2 < 6 ∧ (expectedBootstrapContainer true true true).events.get? j2 =
      some (Event.djangoConfigure "configs.django") :=
  c2_django_before_register CollabBehavior.allOk true true
    (expectedBootstrapContainer true true true) (by decide) 6
    (Event.resolveCollaborator "Registry") (by decide) (by decide)

/-- Claim C3, counterexample: when the phase-1 configurator raises,
the bootstrap fails with the collaborator's original error directly —
the source has no handler, so no `BootstrapPhaseError` wrapper is ever
produced. -/
theorem c3_counterexample :
    ContainerFactory.call bBoom true true true =
      Except.error (Err.collaboratorFailure "boom",
        { Container.new with events := [Event.resolveCollaborator "DjangoConfigurator"] }) ∧
    ¬ ∃ cause c1, ContainerFactory.call bBoom true true true =
        Except.error (Err.bootstrapPhaseError cause, c1) := by
  constructor
  · decide
  · rintro ⟨cause, c1, hw⟩
    rw [show ContainerFactory.call bBoom true true true =
      Except.error (Err.collaboratorFailure "boom",
        { Container.new with events := [Event.resolveCollaborator "DjangoConfigurator"] })
      from by decide] at hw
    simp at hw

/-- Claim C3 (amended): if a collaborator invoked during any of the
four bootstrap phases raises an error (earlier enabled phases having
succeeded, or the error would have preempted them), the remaining
phases are never invoked and the bootstrap call fails by propagating
the collaborator's original error unwrapped (the source defines no
`BootstrapPhaseError` wrapper).  The four implications cover the four
phases; the final conjunct checks, for every flag combination, that
each failure state records no invocation of the failing phase or any
later phase and that nothing was registered. -/
theorem c3_error_propagation :
    (∀ (b : CollabBehavior) (msg : String) (cl il : Bool), b.djangoError = some msg →
      ContainerFactory.call b true cl il =
        Except.error (Err.collaboratorFailure msg, phase1ErrState)) ∧
    (∀ (b : CollabBehavior) (msg : String) (cd il : Bool),
      (cd = true → b.djangoError = none) → b.loggingError = some msg →
      ContainerFactory.call b cd true il =
        Except.error (Err.collaboratorFailure msg, phase2ErrState cd)) ∧
    (∀ (b : CollabBehavior) (msg : String) (cd cl : Bool),
      (cd = true → b.djangoError = none) → (cl = true → b.loggingError = none) →
      b.instrumentError = some msg →
      ContainerFactory.call b cd cl true =
        Except.error (Err.collaboratorFailure msg, phase3ErrState cd cl)) ∧
    (∀ (b : CollabBehavior) (msg : String) (cd cl il : Bool),
      (cd = true → b.djangoError = none) → (cl = true → b.loggingError = none) →
      (il = true → b.instrumentError = none) → b.registerError = some msg →
      ContainerFactory.call b cd cl il =
        Except.error (Err.collaboratorFailure msg, phase4ErrState cd cl il)) ∧
    (∀ cd cl il : Bool,
      (phase1ErrState.events.filter (fun e =>
        isConfiguratorInvocation e || isRegistrationInvocation e)) = [] ∧
      phase1ErrState.registry = [] ∧
      ((phase2ErrState cd).events.filter (fun e =>
        isLoggingInvocation e || isInstrumentInvocation e || isRegistrationInvocation e)) =
        [] ∧
      (phase2ErrState cd).registry = [] ∧
      ((phase3ErrState cd cl).events.filter (fun e =>
        isInstrumentInvocation e || isRegistrationInvocation e)) = [] ∧
      (phase3ErrState cd cl).registry = [] ∧
      ((phase4ErrState cd cl il).events.filter isRegistrationInvocation) = [] ∧
      (phase4ErrState cd cl il).registry = []) := by
  refine ⟨?_, ?_, ?_, ?_, ?_⟩
  · intro b msg cl il hb
    simp [ContainerFactory.call, ContainerFactory.configureDjango, hb, logEvent,
      Container.new, phase1ErrState]
  · intro b msg cd il h1 hb
    cases cd with
    | true =>
      have hdn := h1 rfl
      simp [ContainerFactory.call, ContainerFactory.configureDjango,
        ContainerFactory.configureLogging, hdn, hb, logEvent, Container.new,
        phase2ErrState, djangoTrace]
    | false =>
      simp [ContainerFactory.call, ContainerFactory.configureLogging, hb, logEvent,
        Container.new, phase2ErrState]
  · intro b msg cd cl h1 h2 hb
    cases cd <;> cases cl <;>
      simp_all [ContainerFactory.call, ContainerFactory.configureDjango,
        ContainerFactory.configureLogging, ContainerFactory.instrumentLibraries, logEvent,
        Container.new, phase3ErrState, djangoTrace, loggingTrace]
  · intro b msg cd cl il h1 h2 h3 hb
    cases cd <;> cases cl <;> cases il <;>
      simp_all [ContainerFactory.call, ContainerFactory.configureDjango,
        ContainerFactory.configureLogging, ContainerFactory.instrumentLibraries,
        ContainerFactory.registerServices, logEvent, Container.new, phase4ErrState,
        djangoTrace, loggingTrace, instrumentTrace]
  · intro cd cl il
    cases cd <;> cases cl <;> cases il <;> decide

/-- Claim C3, witness: the amended statement at two concrete raising
stubs — `bBoom` (the phase-1 configurator raises) and `bBoomReg` (the
phase-4 registry collaborator raises with all flags true). -/
theorem c3_witness :
    ContainerFactory.call bBoom true true true =
      Except.error (Err.collaboratorFailure "boom", phase1ErrState) ∧
    ContainerFactory.call bBoomReg true true true =
      Except.error (Err.collaboratorFailure "late", phase4ErrState true true true) :=
  ⟨c3_error_propagation.1 bBoom "boom" true true rfl,
   c3_error_propagation.2.2.2.1 bBoomReg "late" true true true (fun _ => rfl) (fun _ => rfl)
     (fun _ => rfl) rfl⟩

/-- Claim C8: cycle handling.  First, the resolver never exhausts the
recursion bound `fuelBound` — resolution always terminates with a real
result rather than recursing indefinitely.  Second, whenever resolving
a key transitively re-enters a key under construction — directly or
through any position of any factory's dependency list along the way
(`Reenters`) — resolution fails with a `circularDependency` error. -/
theorem c8_cycle_detection :
    (∀ k s, Container.resolve k s ≠ Except.error Err.outOfFuel) ∧
    (∀ s k, Reenters s k →
      ∃ ck, Container.resolve k s = Except.error (Err.circularDependency ck)) := by
  constructor
  · intro k s hcontra
    simp only [Container.resolve] at hcontra
    cases hr : resolveSeq (fuelBound s) [k] s with
    | error e =>
      simp only [hr] at hcontra
      have he : e = Err.outOfFuel := by
        injection hcontra
      subst he
      refine resolveSeq_no_outOfFuel (fuelBound s) [k] s ?_ hr
      have hfb : fuelBound s = ((freeKeys s).length * (maxFanout s.registry + 1) + 1) + 1 := rfl
      simp only [List.length_cons, List.length_nil]
      omega
    | ok p =>
      obtain ⟨is, s1⟩ := p
      simp [hr] at hcontra
  · intro s k hre
    obtain ⟨ck, hck⟩ := resolveSeq_reentersSeq (show ReentersSeq s [k] from hre) (fuelBound s)
      (by
        have hfb : fuelBound s =
            ((freeKeys s).length * (maxFanout s.registry + 1) + 1) + 1 := rfl
        simp only [List.length_cons, List.length_nil]
        omega)
    exact ⟨ck, by simp [Container.resolve, hck]⟩

/-- Claim C8, witness: two concrete cycles fail with a
circular-dependency error — the two-key cycle `kA -> kB -> kA` through
head dependency positions, and the cycle of `kC`, whose factory
re-resolves its own key at the *second* position of its dependency
list after the leaf `kX` resolved successfully. -/
theorem c8_witness :
    (∃ ck, Container.resolve kA cycContainer = Except.error (Err.circularDependency ck)) ∧
    (∃ ck, Container.resolve kC cyc2Container = Except.error (Err.circularDependency ck)) :=
  ⟨c8_cycle_detection.2 cycContainer kA
    (ReentersSeq.step _ kA [] bindA (by decide) (by decide) (by decide)
      (ReentersSeq.step _ kB [] bindB (by decide) (by decide) (by decide)
        (ReentersSeq.hit _ kA [] bindA (by decide) (by decide) (by decide)))),
   c8_cycle_detection.2 cyc2Container kC
    (ReentersSeq.step _ kC [] bindC (by decide) (by decide) (by decide)
      (ReentersSeq.tail _ kX [kC] 0 cyc2Mid (by decide)
        (ReentersSeq.hit _ kC [] bindC (by decide) (by decide) (by decide))))⟩

/-- Claim C10: in any container returned by the bootstrap, once the
`FastAPIFactory` type key is registered (as diwire's autoregistration
does, with the default SINGLETON lifetime), resolving the string key
"FastAPIFactory" and resolving the type key yield the identical
instance: the name-keyed binding delegates to the type-keyed
resolution. -/
theorem c10_name_key_aliases_type_key (b : CollabBehavior) (cd cl il : Bool) (c : Container)
    (h : ContainerFactory.call b cd cl il = Except.ok c) :
    ∃ i c2,
      Container.resolve (ServiceKey.nameKey "FastAPIFactory")
        (Container.register (ServiceKey.typeKey "FastAPIFactory") autoRegisteredFastAPI c) =
        Except.ok (i, c2) ∧
      Container.resolve (ServiceKey.typeKey "FastAPIFactory") c2 = Except.ok (i, c2) := by
  have hc := call_ok_eq h
  subst hc
  exact ⟨0, _, rfl, rfl⟩

/-- Claim C10, witness: the aliasing property at a concrete
successful bootstrap. -/
theorem c10_witness :
    ∃ i c2,
      Container.resolve (ServiceKey.nameKey "FastAPIFactory")
        (Container.register (ServiceKey.typeKey "FastAPIFactory") autoRegisteredFastAPI
          (expectedBootstrapContainer true true true)) = Except.ok (i, c2) ∧
      Container.resolve (ServiceKey.typeKey "FastAPIFactory") c2 = Except.ok (i, c2) :=
  c10_name_key_aliases_type_key CollabBehavior.allOk true true true
    (expectedBootstrapContainer true true true) (by decide)

/-- Claim C6: for a key registered with lifetime SINGLETON, two
sequential resolve calls return the identical instance and leave the
second call's state unchanged, and the binding's factory runs at most
once across the two calls. -/
theorem c6_singleton_at_most_once (s : Container) (K : ServiceKey) (bd : Binding)
    (i j : Nat) (s1 s2 : Container)
    (hlook : lookupBinding K s.registry = some bd)
    (hsing : bd.lifetime = Lifetime.SINGLETON)
    (hnotin : K ∉ s.inProgress)
    (h1 : Container.resolve K s = Except.ok (i, s1))
    (h2 : Container.resolve K s1 = Except.ok (j, s2)) :
    j = i ∧ s2 = s1 ∧ countKey K s1.factoryRuns ≤ countKey K s.factoryRuns + 1 := by
  simp only [Container.resolve] at h1
  cases hr1 : resolveSeq (fuelBound s) [K] s with
  | error e => simp [hr1] at h1
  | ok p =>
    obtain ⟨ids, st⟩ := p
    simp only [hr1, Except.ok.injEq, Prod.mk.injEq] at h1
    obtain ⟨hid, hst⟩ := h1
    subst hst
    have hfb : fuelBound s = ((freeKeys s).length * (maxFanout s.registry + 1) + 1) + 1 := rfl
    rw [hfb] at hr1
    simp only [resolveSeq, hlook] at hr1
    have hcsc : (if bd.lifetime = Lifetime.SINGLETON then lookupCache K s.cache else none) =
        lookupCache K s.cache := if_pos hsing
    rw [hcsc] at hr1
    cases hcache : lookupCache K s.cache with
    | some i0 =>
      simp only [hcache, resolveSeq, Except.ok.injEq, Prod.mk.injEq] at hr1
      obtain ⟨hids, hs1⟩ := hr1
      subst hs1
      subst hids
      simp only [List.headD] at hid
      subst hid
      have hsecond := resolve_cache_hit hlook hsing hcache
      rw [hsecond, Except.ok.injEq, Prod.mk.injEq] at h2
      exact ⟨h2.1.symm ▸ rfl, h2.2.symm ▸ rfl, by omega⟩
    | none =>
      simp only [hcache, if_neg hnotin] at hr1
      cases hd : resolveSeq ((freeKeys s).length * (maxFanout s.registry + 1) + 1) bd.deps
          { s with inProgress := K :: s.inProgress } with
      | error e => simp [hd] at hr1
      | ok pd =>
        obtain ⟨depIds, sd⟩ := pd
        simp only [hd, resolveSeq, Except.ok.injEq, Prod.mk.injEq] at hr1
        obtain ⟨hids, hs1⟩ := hr1
        subst hs1
        subst hids
        simp only [List.headD] at hid
        subst hid
        obtain ⟨hregd, hipd, -, hcntd⟩ := resolveSeq_ok_state _ _ _ _ _ hd
        have hcnt : countKey K sd.factoryRuns = countKey K s.factoryRuns :=
          hcntd K (List.mem_cons_self _ _)
        have hfr := finishConstruction_factoryRuns K bd depIds sd
        have hfcache := finishConstruction_cache_self K bd depIds sd hsing
        have hreg1 : (finishConstruction K bd depIds sd).2.registry = s.registry := by
          rw [finishConstruction_registry, hregd]
        have hlook1 : lookupBinding K (finishConstruction K bd depIds sd).2.registry =
            some bd := by rw [hreg1]; exact hlook
        have hsecond := resolve_cache_hit hlook1 hsing hfcache
        rw [hsecond, Except.ok.injEq, Prod.mk.injEq] at h2
        refine ⟨h2.1.symm ▸ rfl, h2.2.symm ▸ rfl, ?_⟩
        rw [hfr, countKey_append, hcnt]
        simp [countKey]

/-- Claim C6, witness: resolving the concrete SINGLETON service twice
yields the same instance id, the same final state, and at most one
factory run. -/
theorem c6_witness :
    (0 : Nat) = 0 ∧ svcResolved = svcResolved ∧
    countKey kSvc svcResolved.factoryRuns ≤ countKey kSvc svcContainer.factoryRuns + 1 :=
  c6_singleton_at_most_once svcContainer kSvc bindSvc 0 0 svcResolved svcResolved
    rfl rfl (by decide) (by decide) (by decide)

end ModernDjango
